import Mathlib

/-!
Shallow embedding of the task-manager backend (`src/backend/server.js`).

The backend is an Express application: two unauthenticated credential routes
(`POST /api/auth/register`, `POST /api/auth/login`), an `authMiddleware`
guarding four task routes (`GET/POST /api/tasks`, `PATCH/DELETE
/api/tasks/:id`), a Mongoose `User` model `{email, password}` and a Mongoose
`Task` model `{title, completed, user}` (both with timestamps).

Modelling conventions:
- The MongoDB collections become explicit `List User` / `List Task` values
  threaded through each handler; each handler is a pure function from the
  store and the request to the new store and an HTTP response.
- Machine-generated values (ObjectIds, bcrypt salts, clock readings) are
  passed in as explicit `Nat` parameters.
- Strings from headers are modelled as `List Char` so that the JavaScript
  string operations (`String.prototype.replace` of the first occurrence)
  are structurally recursive and computable.
- The external `jsonwebtoken` and `bcryptjs` libraries are not part of the
  repository; they are modelled from the spec and their documented
  semantics (see `jwtSign`, `jwtVerify`, `bcryptHash`, `bcryptCompare`).
-/

namespace TaskManager

/-! ## JavaScript string helpers -/

/-- JavaScript `String.prototype.trim` (also the Mongoose `trim: true`
setter): drop leading and trailing whitespace. -/
def strTrim (s : String) : String :=
  ⟨(((s.data.dropWhile Char.isWhitespace).reverse).dropWhile
      Char.isWhitespace).reverse⟩

/-- JavaScript `str.replace(pat, '')` where `pat` is a non-empty plain
string: remove the FIRST occurrence of `pat` anywhere in the string (the
string is unchanged when `pat` does not occur).  Used by `authMiddleware`
for `authHeader.replace('Bearer ', '')` (server.js line 64). -/
def stripFirst (pat : List Char) : List Char → List Char
  | [] => []
  | c :: cs =>
    if pat.isPrefixOf (c :: cs) then cs.drop (pat.length - 1)
    else c :: stripFirst pat cs

/-! ## Access-token model

Modelled from the spec: the `jsonwebtoken` library is an external
dependency, not part of this repository.  Per the spec, a token is a
signed, self-contained credential carrying the user identifier and an
absolute expiry; `expiresIn: '1h'` means the expiry is exactly 3600
seconds after the issued-at time, and verification succeeds exactly when
the signature matches the secret-keyed MAC of the payload and the current
time is before the expiry.  The MAC is modelled as an explicit function of
the secret and the payload; its concrete shape is irrelevant to the
claims, which only compare signatures for equality. -/

/-- Payload of a signed token: `jwt.sign({ userId: user.id }, JWT_SECRET,
{ expiresIn: '1h' })` embeds the user id, the issued-at time and the
expiry. -/
structure JwtPayload where
  userId : Nat
  iat : Nat
  exp : Nat
  deriving Repr, DecidableEq

/-- Modelled from the spec: the secret-keyed message-authentication code
over the payload. -/
def mkSig (secret : Nat) (p : JwtPayload) : Nat :=
  ((secret * 31 + p.userId) * 31 + p.iat) * 31 + p.exp

/-- A signed token: payload plus signature. -/
structure Jwt where
  payload : JwtPayload
  sig : Nat
  deriving Repr, DecidableEq

/-- Modelled from the spec: `jwt.sign({ userId }, secret, { expiresIn:
'1h' })` at clock time `now` (seconds): expiry is exactly `now + 3600`. -/
def jwtSign (secret userId now : Nat) : Jwt :=
  let p : JwtPayload := ⟨userId, now, now + 3600⟩
  ⟨p, mkSig secret p⟩

/-- Modelled from the spec: `jwt.verify(token, secret)` at clock time
`now` succeeds (returning the decoded payload's `userId`) iff the
signature verifies against the secret AND `now` is before the expiry;
otherwise it throws, modelled as `none`. -/
def jwtVerify (secret : Nat) (tok : Jwt) (now : Nat) : Option Nat :=
  if tok.sig == mkSig secret tok.payload && now < tok.payload.exp then
    some tok.payload.userId
  else none

/-! ### Token wire format

A token travels in the `Authorization` header as a string.  The wire
format is modelled as the four payload numbers in decimal separated by
`'.'`; `decodeJwt` is the parsing half of `jwt.verify` (a malformed
credential fails to decode, which `jwt.verify` reports by throwing). -/

/-- Decimal value of a digit character, `none` for a non-digit. -/
def digitVal (c : Char) : Option Nat :=
  if c.isDigit then some (c.toNat - 48) else none

/-- Accumulating decimal parser. -/
def parseNatAux : List Char → Nat → Option Nat
  | [], acc => some acc
  | c :: cs, acc =>
    match digitVal c with
    | some d => parseNatAux cs (acc * 10 + d)
    | none => none

/-- Parse a non-empty all-digit character list as a decimal number. -/
def parseNat : List Char → Option Nat
  | [] => none
  | c :: cs => parseNatAux (c :: cs) 0

/-- Split a character list on `'.'` (like `"a.b".split('.')`). -/
def splitOnDot : List Char → List (List Char)
  | [] => [[]]
  | c :: cs =>
    if c = '.' then [] :: splitOnDot cs
    else
      match splitOnDot cs with
      | [] => [[c]]
      | p :: ps => (c :: p) :: ps

/-- Parse a wire-format token: `userId.iat.exp.sig`, all decimal. -/
def decodeJwt (cs : List Char) : Option Jwt :=
  match splitOnDot cs with
  | [a, b, c, d] =>
    match parseNat a, parseNat b, parseNat c, parseNat d with
    | some uid, some iat, some e, some s => some ⟨⟨uid, iat, e⟩, s⟩
    | _, _, _, _ => none
  | _ => none

/-! ## Access Guard (`authMiddleware`, server.js lines 56-79) -/

/-- The literal scheme marker `'Bearer '` passed to `replace`. -/
def bearerChars : List Char := ['B', 'e', 'a', 'r', 'e', 'r', ' ']

/-- Outcome of the middleware: either the authenticated user id attached
as `req.user`, or a response sent without reaching the handler. -/
inductive AuthResult where
  | ok (userId : Nat)
  | err (status : Nat) (msg : String)
  deriving Repr, DecidableEq

/-- `authMiddleware`: reject a missing `Authorization` header (401), strip
the first occurrence of `'Bearer '` via `replace`, reject an empty token
(401), then `jwt.verify`; any verification failure is caught and answered
with 401 `'Token is not valid'`. -/
def authMiddleware (secret : Nat) (authHeader : Option (List Char))
    (now : Nat) : AuthResult :=
  match authHeader with
  | none => .err 401 "Authorization header missing"
  | some h =>
    let token := stripFirst bearerChars h
    if token.isEmpty then .err 401 "No token, authorization denied"
    else
      match decodeJwt token with
      | none => .err 401 "Token is not valid"
      | some tok =>
        match jwtVerify secret tok now with
        | some uid => .ok uid
        | none => .err 401 "Token is not valid"

/-! ## Password hashing

Modelled from the spec: `bcryptjs` is an external dependency.  A hash is
a salted one-way digest; `bcrypt.compare(plain, hash)` re-derives the
digest with the salt embedded in the hash and succeeds exactly when
`plain` is the password that was hashed.  The model records the salt and
the hashed password inside the opaque hash value; one-wayness is not
needed by any claim. -/

structure BcryptHash where
  salt : Nat
  digest : String
  deriving Repr, DecidableEq

/-- Modelled from the spec: `bcrypt.hash(password, salt)`. -/
def bcryptHash (salt : Nat) (password : String) : BcryptHash :=
  ⟨salt, password⟩

/-- Modelled from the spec: `bcrypt.compare(password, hash)`. -/
def bcryptCompare (password : String) (h : BcryptHash) : Bool :=
  h.digest == password

/-! ## Data model (server.js lines 35-51) -/

/-- A persisted `User` document: `{email: {type: String, required,
unique, trim}, password: {type: String, required}}`.  The Mongo `_id` is
`id`; the automatic timestamps are not read by any route and are
omitted. -/
structure User where
  id : Nat
  email : String
  password : BcryptHash
  deriving Repr, DecidableEq

/-- A persisted `Task` document: `{title: {type: String, required, trim},
completed: {type: Boolean, default: false}, user: {type: ObjectId,
required}}` plus the automatic `createdAt` / `updatedAt` timestamps. -/
structure Task where
  id : Nat
  title : String
  completed : Bool
  user : Nat
  createdAt : Nat
  updatedAt : Nat
  deriving Repr, DecidableEq

/-- The JSON body `{email, password}` destructured by the two auth
routes; a missing property is `none`. -/
structure AuthBody where
  email : Option String := none
  password : Option String := none
  deriving Repr, DecidableEq

/-- The JSON body of a task request as the PATCH handler passes it to
`findOneAndUpdate` (the POST handler reads only `title`); a missing
property is `none`. -/
structure TaskBody where
  title : Option String := none
  completed : Option Bool := none
  user : Option Nat := none
  deriving Repr, DecidableEq

/-- Response of an auth route: `{token}` on success, `{message}` on
failure, with the HTTP status. -/
inductive AuthResponse where
  | token (status : Nat) (tok : Jwt)
  | message (status : Nat) (msg : String)
  deriving Repr, DecidableEq

/-- Response of a task route: a task document, a list of task documents,
or a `{message}`, with the HTTP status. -/
inductive TaskResponse where
  | json (status : Nat) (task : Task)
  | jsonList (status : Nat) (tasks : List Task)
  | message (status : Nat) (msg : String)
  deriving Repr, DecidableEq

/-! ## Credential Service (server.js lines 87-124) -/

/-- `User.findOne({ email })`.  When `email` is `undefined` Mongoose
strips the key from the filter, so the query becomes `findOne({})` and
returns the first document; when `email` is a string the schema's `trim`
setter is applied to the query value (Mongoose runs setters on query
filters) and the first document with that email is returned. -/
def findUserByEmail (store : List User) (email : Option String) :
    Option User :=
  match email with
  | none => store.head?
  | some e => store.find? (fun u => u.email == strTrim e)

/-- `POST /api/auth/register` (server.js lines 87-105).  In source
order: `findOne({email})` hitting an existing user answers 400
`'User already exists'`; otherwise `bcrypt.hash(password, salt)` throws
on a missing password (caught: 500); `user.save()` rejects a missing or
empty (after trim) email via the `required` validator (caught: 500);
otherwise the user is persisted and a fresh token is issued with 201.
`salt`, `newId` and `now` stand for the generated salt, the generated
ObjectId and the clock. -/
def register (store : List User) (body : AuthBody)
    (secret salt newId now : Nat) : List User × AuthResponse :=
  match findUserByEmail store body.email with
  | some _ => (store, .message 400 "User already exists")
  | none =>
    match body.password with
    | none => (store, .message 500 "Server error during registration")
    | some pw =>
      match body.email with
      | none => (store, .message 500 "Server error during registration")
      | some e =>
        if strTrim e == "" then
          (store, .message 500 "Server error during registration")
        else
          (store ++ [⟨newId, strTrim e, bcryptHash salt pw⟩],
            .token 201 (jwtSign secret newId now))

/-- `POST /api/auth/login` (server.js lines 108-124).  `findOne({email})`
missing answers 400 `'Invalid Credentials'`; `bcrypt.compare(password,
user.password)` throws on a missing password (caught: 500) and answers
the same 400 `'Invalid Credentials'` on a mismatch; a match issues a
fresh token with 200. -/
def login (store : List User) (body : AuthBody) (secret now : Nat) :
    AuthResponse :=
  match findUserByEmail store body.email with
  | none => .message 400 "Invalid Credentials"
  | some u =>
    match body.password with
    | none => .message 500 "Server error during login"
    | some pw =>
      if bcryptCompare pw u.password then
        .token 200 (jwtSign secret u.id now)
      else .message 400 "Invalid Credentials"

/-- One register request together with the machine-generated values it
consumes, for reasoning about sequences of registrations. -/
structure RegisterCall where
  body : AuthBody
  secret : Nat
  salt : Nat
  newId : Nat
  now : Nat
  deriving Repr, DecidableEq

/-- The user store after a sequence of register requests. -/
def registerSeq (calls : List RegisterCall) (store : List User) :
    List User :=
  calls.foldl
    (fun st c => (register st c.body c.secret c.salt c.newId c.now).fst)
    store

/-- At most one `User` document per email. -/
def uniqueEmails (store : List User) : Prop :=
  store.Pairwise (fun a b => a.email ≠ b.email)

/-! ## Task routes (server.js lines 129-186) -/

/-- The ownership filter `{ _id: req.params.id, user: req.user }` used by
the PATCH and DELETE handlers. -/
def ownerFilter (id uid : Nat) (t : Task) : Bool :=
  t.id == id && t.user == uid

/-- `Model.findOneAndUpdate(filter, update, {new: true})`: atomically
update the first document matching the filter and return the updated
document, or return `none` leaving the store unchanged. -/
def findOneAndUpdate (p : Task → Bool) (upd : Task → Task) :
    List Task → Option Task × List Task
  | [] => (none, [])
  | t :: ts =>
    if p t then (some (upd t), upd t :: ts)
    else
      let r := findOneAndUpdate p upd ts
      (r.fst, t :: r.snd)

/-- `Model.findOneAndDelete(filter)`: atomically remove the first
document matching the filter and return it, or return `none` leaving the
store unchanged. -/
def findOneAndDelete (p : Task → Bool) :
    List Task → Option Task × List Task
  | [] => (none, [])
  | t :: ts =>
    if p t then (some t, ts)
    else
      let r := findOneAndDelete p ts
      (r.fst, t :: r.snd)

/-- Applying the PATCH body as the Mongoose update document: each present
field overwrites the stored field (`title` through the `trim` setter),
and the `timestamps` option refreshes `updatedAt`.  Note that a `user`
field present in the body DOES overwrite the owner: the handler passes
`req.body` to `findOneAndUpdate` unfiltered (server.js line 160). -/
def applyUpdate (body : TaskBody) (now : Nat) (t : Task) : Task :=
  { t with
    title := match body.title with
             | some s => strTrim s
             | none => t.title
    completed := body.completed.getD t.completed
    user := body.user.getD t.user
    updatedAt := now }

/-- The `runValidators: true` update validation: a `title` present in the
update must not be empty after trimming (`required`); `completed` and
`user` are already well-typed in the model, so no other validator can
fail.  Mongoose runs update validators client-side before the query
executes, so an invalid body fails even when no document matches. -/
def validUpdate (body : TaskBody) : Bool :=
  match body.title with
  | some s => !(strTrim s == "")
  | none => true

/-- `GET /api/tasks` (server.js lines 129-137): `Task.find({user:
req.user}).sort({createdAt: -1})` — the caller's tasks, newest first. -/
def getTasks (store : List Task) (uid : Nat) : TaskResponse :=
  .jsonList 200
    ((store.filter (fun t => t.user == uid)).mergeSort
      (fun a b => b.createdAt ≤ a.createdAt))

/-- `POST /api/tasks` (server.js lines 140-152): `new Task({title:
req.body.title, user: req.user})` — only `title` is read from the body,
the owner comes from the token, `completed` defaults to `false`;
`save()` rejects a missing or empty (after trim) title (caught: 400). -/
def createTask (store : List Task) (uid : Nat) (body : TaskBody)
    (newId now : Nat) : List Task × TaskResponse :=
  match body.title with
  | none =>
    (store, .message 400 "Task validation failed: title is required")
  | some s =>
    if strTrim s == "" then
      (store, .message 400 "Task validation failed: title is required")
    else
      (store ++ [⟨newId, strTrim s, false, uid, now, now⟩],
        .json 201 ⟨newId, strTrim s, false, uid, now, now⟩)

/-- `PATCH /api/tasks/:id` (server.js lines 155-171): an invalid update
body is rejected with 400 (`runValidators`); otherwise
`findOneAndUpdate({_id, user}, req.body, {new: true})` answers the
updated document with 200 or, when no document matches (absent id or
different owner alike), 404 `'Task not found or unauthorized'`. -/
def patchTask (store : List Task) (uid id : Nat) (body : TaskBody)
    (now : Nat) : List Task × TaskResponse :=
  if validUpdate body then
    match findOneAndUpdate (ownerFilter id uid) (applyUpdate body now)
        store with
    | (some t, store') => (store', .json 200 t)
    | (none, _) => (store, .message 404 "Task not found or unauthorized")
  else (store, .message 400 "Task validation failed")

/-- `DELETE /api/tasks/:id` (server.js lines 174-186):
`findOneAndDelete({_id, user})` answers 200 with a confirmation message
or, when no document matches (absent id or different owner alike), 404
`'Task not found or unauthorized'`. -/
def deleteTask (store : List Task) (uid id : Nat) :
    List Task × TaskResponse :=
  match findOneAndDelete (ownerFilter id uid) store with
  | (some _, store') => (store', .message 200 "Task deleted successfully")
  | (none, _) => (store, .message 404 "Task not found or unauthorized")

/-! ## Helper lemmas -/

/-- Removing the first occurrence of a non-empty pattern from a string
that starts with the pattern leaves exactly the rest. -/
theorem stripFirst_of_prefix (pat rest : List Char) (hne : pat ≠ []) :
    stripFirst pat (pat ++ rest) = rest := by
  cases pat with
  | nil => exact absurd rfl hne
  | cons a as =>
    have hpre : (a :: as).isPrefixOf (a :: (as ++ rest)) = true := by
      rw [← List.cons_append]
      exact List.isPrefixOf_iff_prefix.mpr (List.prefix_append _ _)
    show stripFirst (a :: as) (a :: (as ++ rest)) = rest
    simp only [stripFirst, hpre, if_true, List.length_cons,
      Nat.add_sub_cancel]
    exact List.drop_left as rest

/-- When no document matches the filter, `findOneAndUpdate` returns
`none` and the store is unchanged. -/
theorem findOneAndUpdate_none (p : Task → Bool) (f : Task → Task) :
    ∀ l : List Task, (∀ t ∈ l, p t = false) →
      findOneAndUpdate p f l = (none, l)
  | [], _ => rfl
  | t :: ts, h => by
    have ht : p t = false := h t (List.mem_cons_self t ts)
    have ih := findOneAndUpdate_none p f ts
      (fun x hx => h x (List.mem_cons_of_mem t hx))
    simp [findOneAndUpdate, ht, ih]

/-- When no document matches the filter, `findOneAndDelete` returns
`none` and the store is unchanged. -/
theorem findOneAndDelete_none (p : Task → Bool) :
    ∀ l : List Task, (∀ t ∈ l, p t = false) →
      findOneAndDelete p l = (none, l)
  | [], _ => rfl
  | t :: ts, h => by
    have ht : p t = false := h t (List.mem_cons_self t ts)
    have ih := findOneAndDelete_none p ts
      (fun x hx => h x (List.mem_cons_of_mem t hx))
    simp [findOneAndDelete, ht, ih]

/-- `findOneAndUpdate` updates exactly the document `find?` locates. -/
theorem findOneAndUpdate_fst_of_find? (p : Task → Bool) (f : Task → Task) :
    ∀ (l : List Task) (t : Task), l.find? p = some t →
      (findOneAndUpdate p f l).fst = some (f t)
  | [], t, h => by simp [List.find?] at h
  | x :: xs, t, h => by
    cases hx : p x with
    | true =>
      rw [List.find?_cons_of_pos _ hx] at h
      cases h
      simp [findOneAndUpdate, hx]
    | false =>
      rw [List.find?_cons_of_neg _ (by simp [hx])] at h
      have ih := findOneAndUpdate_fst_of_find? p f xs t h
      simp [findOneAndUpdate, hx, ih]

/-- After `findOneAndUpdate`, when the updated document still matches the
filter, `find?` on the new store locates the updated document. -/
theorem findOneAndUpdate_snd_find? (p : Task → Bool) (f : Task → Task) :
    ∀ (l : List Task) (t : Task), l.find? p = some t → p (f t) = true →
      (findOneAndUpdate p f l).snd.find? p = some (f t)
  | [], t, h, _ => by simp [List.find?] at h
  | x :: xs, t, h, hpf => by
    cases hx : p x with
    | true =>
      rw [List.find?_cons_of_pos _ hx] at h
      cases h
      simp only [findOneAndUpdate, hx, if_true]
      exact List.find?_cons_of_pos _ hpf
    | false =>
      rw [List.find?_cons_of_neg _ (by simp [hx])] at h
      have ih := findOneAndUpdate_snd_find? p f xs t h hpf
      simp only [findOneAndUpdate, hx]
      rw [if_neg (by simp), List.find?_cons_of_neg _ (by simp [hx])]
      exact ih

/-- A single register request preserves email uniqueness of the user
store. -/
theorem register_preserves_uniqueEmails (store : List User)
    (body : AuthBody) (secret salt newId now : Nat)
    (hu : uniqueEmails store) :
    uniqueEmails (register store body secret salt newId now).fst := by
  rcases hem : body.email with _ | e
  · rcases hhead : store.head? with _ | u
    · rcases hpw : body.password with _ | pw <;>
        simpa [register, findUserByEmail, hem, hhead, hpw] using hu
    · simpa [register, findUserByEmail, hem, hhead] using hu
  · rcases hfind : store.find? (fun u => u.email == strTrim e) with _ | u
    · rcases hpw : body.password with _ | pw
      · simpa [register, findUserByEmail, hem, hfind, hpw] using hu
      · by_cases he : strTrim e = ""
        · rw [he] at hfind
          simpa [register, findUserByEmail, hem, hfind, hpw, he] using hu
        · have hgoal : uniqueEmails
              (store ++ [⟨newId, strTrim e, bcryptHash salt pw⟩]) := by
            refine List.pairwise_append.mpr ⟨hu, by simp, ?_⟩
            intro a ha b hb
            rw [List.mem_singleton] at hb
            subst hb
            intro hcontra
            have hne := List.find?_eq_none.mp hfind a ha
            simp only [beq_iff_eq] at hne
            exact hne hcontra
          simpa [register, findUserByEmail, hem, hfind, hpw, he]
            using hgoal
    · simpa [register, findUserByEmail, hem, hfind] using hu

/-- Any sequence of register requests preserves email uniqueness. -/
theorem registerSeq_preserves_uniqueEmails :
    ∀ (calls : List RegisterCall) (store : List User),
      uniqueEmails store → uniqueEmails (registerSeq calls store)
  | [], _, hu => hu
  | c :: cs, store, hu =>
    registerSeq_preserves_uniqueEmails cs _
      (register_preserves_uniqueEmails store c.body c.secret c.salt
        c.newId c.now hu)

/-! ## Claims -/

/-- C1: the claim states that under PATCH the owner reference is taken
exclusively from the token and any `user` field in the request body is
ignored, the owner being immutable after creation.  The code violates
this: the PATCH handler passes `req.body` unfiltered as the Mongoose
update document, so a `user` field in the body overwrites the owner.
Concretely: the owner of task 1 is user 10; a PATCH authenticated as
user 10 with body `{user: 20}` re-owns the task to user 20 and answers
200 with the re-owned document. -/
theorem C1_patch_overwrites_owner :
    patchTask [⟨1, "t", false, 10, 0, 0⟩] 10 1 ⟨none, none, some 20⟩ 5
      = ([⟨1, "t", false, 20, 0, 5⟩],
         .json 200 ⟨1, "t", false, 20, 0, 5⟩)
    ∧ (patchTask [⟨1, "t", false, 10, 0, 0⟩] 10 1
        ⟨none, none, some 20⟩ 5).fst.find? (fun t => t.id == 1)
      ≠ some ⟨1, "t", false, 10, 0, 0⟩ := by decide

/-- C2 counterexample: the claim states that EVERY PATCH or DELETE on
A's task id under B's token answers 404.  A PATCH whose body fails
update validation (here `{title: ""}`, rejected by the `required`
validator under `runValidators: true`) answers 400, not 404: Mongoose
runs update validators before the ownership-filtered query executes. -/
theorem C2_patch_validation_counterexample :
    patchTask [⟨1, "t", false, 10, 0, 0⟩] 20 1 ⟨some "", none, none⟩ 5
      = ([⟨1, "t", false, 10, 0, 0⟩],
         .message 400 "Task validation failed")
    ∧ (patchTask [⟨1, "t", false, 10, 0, 0⟩] 20 1
        ⟨some "", none, none⟩ 5).snd
      ≠ .message 404 "Task not found or unauthorized" := by decide

/-- C2 (amended): for every request on a task id by a caller who owns no
task with that id — equally when the id does not exist at all and when it
names another user's task — DELETE answers the one fixed 404 response,
PATCH answers the same fixed 404 response whenever its body passes update
validation (and the fixed 400 validation response otherwise), the store
is unchanged, and no response carries a task document. -/
theorem C2_cross_user_404 (store : List Task) (i uidB now : Nat)
    (body : TaskBody)
    (hother : ∀ t ∈ store, t.id = i → t.user ≠ uidB) :
    deleteTask store uidB i
      = (store, .message 404 "Task not found or unauthorized")
    ∧ (validUpdate body = true →
        patchTask store uidB i body now
          = (store, .message 404 "Task not found or unauthorized"))
    ∧ (validUpdate body = false →
        patchTask store uidB i body now
          = (store, .message 400 "Task validation failed")) := by
  have hfilter : ∀ t ∈ store, ownerFilter i uidB t = false := by
    intro t ht
    rw [ownerFilter]
    by_cases hid : t.id = i
    · simp [hid, hother t ht hid]
    · simp [hid]
  refine ⟨?_, ?_, ?_⟩
  · rw [deleteTask, findOneAndDelete_none _ _ hfilter]
  · intro hv
    rw [patchTask, if_pos hv, findOneAndUpdate_none _ _ _ hfilter]
  · intro hv
    rw [patchTask, if_neg (by rw [hv]; exact Bool.false_ne_true)]

/-- C2 witness: a store holding one task with id 1 owned by user 10; the
caller is user 20 and the PATCH body `{completed: true}` is valid. -/
theorem C2_cross_user_404_witness :
    (∀ t ∈ [(⟨1, "t", false, 10, 0, 0⟩ : Task)], t.id = 1 → t.user ≠ 20)
    ∧ deleteTask [⟨1, "t", false, 10, 0, 0⟩] 20 1
        = ([⟨1, "t", false, 10, 0, 0⟩],
           .message 404 "Task not found or unauthorized")
    ∧ patchTask [⟨1, "t", false, 10, 0, 0⟩] 20 1
          ⟨none, some true, none⟩ 5
        = ([⟨1, "t", false, 10, 0, 0⟩],
           .message 404 "Task not found or unauthorized") :=
  ⟨by decide,
   (C2_cross_user_404 [⟨1, "t", false, 10, 0, 0⟩] 1 20 5
     ⟨none, some true, none⟩ (by decide)).1,
   (C2_cross_user_404 [⟨1, "t", false, 10, 0, 0⟩] 1 20 5
     ⟨none, some true, none⟩ (by decide)).2.1 (by decide)⟩

/-- C3: a login whose identifier is not in the store and a login whose
identifier is found but whose password fails the bcrypt comparison
produce the very same response: status 400 with message
`'Invalid Credentials'`. -/
theorem C3_login_indistinguishable (store : List User) (b1 b2 : AuthBody)
    (secret1 secret2 now1 now2 : Nat) (u : User) (pw : String)
    (h1 : findUserByEmail store b1.email = none)
    (h2 : findUserByEmail store b2.email = some u)
    (hpw : b2.password = some pw)
    (hbad : bcryptCompare pw u.password = false) :
    login store b1 secret1 now1 = .message 400 "Invalid Credentials"
    ∧ login store b2 secret2 now2 = .message 400 "Invalid Credentials"
    ∧ login store b1 secret1 now1 = login store b2 secret2 now2 := by
  have e1 : login store b1 secret1 now1
      = .message 400 "Invalid Credentials" := by
    rw [login, h1]
  have e2 : login store b2 secret2 now2
      = .message 400 "Invalid Credentials" := by
    rw [login, h2, hpw]
    simp [hbad]
  exact ⟨e1, e2, e1.trans e2.symm⟩

/-- C3 witness: the store holds user `x@y.z` with password `p`; the
first login uses the unknown identifier `no@no.no`, the second uses
`x@y.z` with the wrong password `wrong`. -/
theorem C3_login_indistinguishable_witness :
    findUserByEmail [⟨3, "x@y.z", bcryptHash 1 "p"⟩]
        (some "no@no.no") = none
    ∧ bcryptCompare "wrong" (bcryptHash 1 "p") = false
    ∧ login [⟨3, "x@y.z", bcryptHash 1 "p"⟩]
          ⟨some "no@no.no", some "p"⟩ 7 0
        = .message 400 "Invalid Credentials"
    ∧ login [⟨3, "x@y.z", bcryptHash 1 "p"⟩]
          ⟨some "x@y.z", some "wrong"⟩ 7 0
        = .message 400 "Invalid Credentials" :=
  ⟨by decide, by decide,
   (C3_login_indistinguishable [⟨3, "x@y.z", bcryptHash 1 "p"⟩]
     ⟨some "no@no.no", some "p"⟩ ⟨some "x@y.z", some "wrong"⟩ 7 7 0 0
     ⟨3, "x@y.z", bcryptHash 1 "p"⟩ "wrong" (by decide) (by decide)
     (by decide) (by decide)).1,
   (C3_login_indistinguishable [⟨3, "x@y.z", bcryptHash 1 "p"⟩]
     ⟨some "no@no.no", some "p"⟩ ⟨some "x@y.z", some "wrong"⟩ 7 7 0 0
     ⟨3, "x@y.z", bcryptHash 1 "p"⟩ "wrong" (by decide) (by decide)
     (by decide) (by decide)).2.1⟩

/-- C4: a token issued by `jwt.sign` carries an expiry exactly 3600
seconds (1 hour) after issuance; guard-side verification succeeds iff
the signature verifies against the secret AND the current time is before
the expiry; and through the full Access Guard a token issued at time `T`
is accepted at `T+59min` and rejected at `T+61min`. -/
theorem C4_token_lifetime (secret uid T : Nat) (cs : List Char)
    (hdec : decodeJwt cs = some (jwtSign secret uid T)) :
    (jwtSign secret uid T).payload.exp
      = (jwtSign secret uid T).payload.iat + 3600
    ∧ (∀ (tok : Jwt) (now : Nat),
        (jwtVerify secret tok now).isSome = true ↔
          (tok.sig = mkSig secret tok.payload ∧ now < tok.payload.exp))
    ∧ authMiddleware secret (some (bearerChars ++ cs)) (T + 59 * 60)
        = .ok uid
    ∧ authMiddleware secret (some (bearerChars ++ cs)) (T + 61 * 60)
        = .err 401 "Token is not valid" := by
  have hne : cs ≠ [] := by
    intro h
    rw [h] at hdec
    simp [decodeJwt, splitOnDot] at hdec
  have hstrip : stripFirst bearerChars (bearerChars ++ cs) = cs :=
    stripFirst_of_prefix _ _ (by simp [bearerChars])
  refine ⟨rfl, ?_, ?_, ?_⟩
  · intro tok now
    simp only [jwtVerify]
    by_cases hs : tok.sig = mkSig secret tok.payload <;>
      by_cases hn : now < tok.payload.exp <;>
      simp [hs, hn]
  · have hlt : T + 59 * 60 < T + 3600 := by omega
    simp [authMiddleware, hstrip, List.isEmpty_iff, hne, hdec,
      jwtVerify, jwtSign, hlt]
  · have hge : ¬ T + 61 * 60 < T + 3600 := by omega
    simp [authMiddleware, hstrip, List.isEmpty_iff, hne, hdec,
      jwtVerify, jwtSign, hge]

/-- C4 witness: secret 1, user 2, issuance time 0; the wire token
`2.0.3600.35313` decodes to exactly the signed token. -/
theorem C4_token_lifetime_witness :
    decodeJwt "2.0.3600.35313".data = some (jwtSign 1 2 0)
    ∧ authMiddleware 1 (some (bearerChars ++ "2.0.3600.35313".data))
        (0 + 59 * 60) = .ok 2
    ∧ authMiddleware 1 (some (bearerChars ++ "2.0.3600.35313".data))
        (0 + 61 * 60) = .err 401 "Token is not valid" :=
  ⟨by decide,
   (C4_token_lifetime 1 2 0 "2.0.3600.35313".data (by decide)).2.2.1,
   (C4_token_lifetime 1 2 0 "2.0.3600.35313".data (by decide)).2.2.2⟩

/-- C5 counterexample: the claim states that a credential not carrying
the `'Bearer '` prefix is not accepted as a token.  The middleware only
performs `authHeader.replace('Bearer ', '')`, which leaves a header
without the scheme marker unchanged, so a bare valid token in the
`Authorization` header — no `Bearer ` prefix anywhere — is accepted. -/
theorem C5_no_scheme_required_counterexample :
    bearerChars.isPrefixOf "2.0.3600.35313".data = false
    ∧ authMiddleware 1 (some "2.0.3600.35313".data) 0 = .ok 2 := by
  decide

/-- C5 (amended): an absent authorization header yields the 401
missing-header error and an empty token after removing the first
occurrence of `'Bearer '` yields the 401 empty-token error, but the
`'Bearer '` prefix is NOT required: a header the marker removal leaves
unchanged (no occurrence of `'Bearer '`, in particular no prefix) is
used as the token itself and, when it carries a token that verifies, the
request is authenticated. -/
theorem C5_guard_header (secret now : Nat) (hdr cs : List Char)
    (tok : Jwt) (uid : Nat)
    (hstrip : stripFirst bearerChars cs = cs) (hne : cs ≠ [])
    (hdec : decodeJwt cs = some tok)
    (hver : jwtVerify secret tok now = some uid) :
    authMiddleware secret none now
      = .err 401 "Authorization header missing"
    ∧ (stripFirst bearerChars hdr = [] →
        authMiddleware secret (some hdr) now
          = .err 401 "No token, authorization denied")
    ∧ authMiddleware secret (some cs) now = .ok uid := by
  refine ⟨rfl, ?_, ?_⟩
  · intro h0
    simp [authMiddleware, h0]
  · simp [authMiddleware, hstrip, List.isEmpty_iff, hne, hdec, hver]

/-- C5 witness: the raw token `2.0.3600.35313` (no scheme marker) is
accepted under secret 1 at time 0, while a missing header and the bare
`'Bearer '` header are rejected with the two 401 errors. -/
theorem C5_guard_header_witness :
    stripFirst bearerChars "2.0.3600.35313".data = "2.0.3600.35313".data
    ∧ authMiddleware 1 none 0 = .err 401 "Authorization header missing"
    ∧ authMiddleware 1 (some "Bearer ".data) 0
        = .err 401 "No token, authorization denied"
    ∧ authMiddleware 1 (some "2.0.3600.35313".data) 0 = .ok 2 :=
  ⟨by decide,
   (C5_guard_header 1 0 "Bearer ".data "2.0.3600.35313".data
     (jwtSign 1 2 0) 2 (by decide) (by decide) (by decide)
     (by decide)).1,
   (C5_guard_header 1 0 "Bearer ".data "2.0.3600.35313".data
     (jwtSign 1 2 0) 2 (by decide) (by decide) (by decide)
     (by decide)).2.1 (by decide),
   (C5_guard_header 1 0 "Bearer ".data "2.0.3600.35313".data
     (jwtSign 1 2 0) 2 (by decide) (by decide) (by decide)
     (by decide)).2.2⟩

/-- C6: a register request whose identifier is already in the store
fails with 400 `'User already exists'` and leaves the store exactly as
it was, and any sequence of register requests starting from a store with
unique emails keeps at most one `User` record per email. -/
theorem C6_register_unique (store : List User) (body : AuthBody)
    (secret salt newId now : Nat) (u : User) (calls : List RegisterCall)
    (hu : uniqueEmails store)
    (htaken : findUserByEmail store body.email = some u) :
    register store body secret salt newId now
      = (store, .message 400 "User already exists")
    ∧ uniqueEmails (registerSeq calls store) := by
  refine ⟨?_, registerSeq_preserves_uniqueEmails calls store hu⟩
  simp [register, htaken]

/-- C6 witness: the store holds the single user `x@y.z`; registering
`x@y.z` again fails with 400 and a further sequence of two register
requests (one duplicate, one fresh) keeps emails unique. -/
theorem C6_register_unique_witness :
    uniqueEmails [⟨3, "x@y.z", bcryptHash 1 "p"⟩]
    ∧ findUserByEmail [⟨3, "x@y.z", bcryptHash 1 "p"⟩] (some "x@y.z")
        = some ⟨3, "x@y.z", bcryptHash 1 "p"⟩
    ∧ register [⟨3, "x@y.z", bcryptHash 1 "p"⟩]
          ⟨some "x@y.z", some "q"⟩ 7 2 9 0
        = ([⟨3, "x@y.z", bcryptHash 1 "p"⟩],
           .message 400 "User already exists")
    ∧ uniqueEmails (registerSeq
        [⟨⟨some "x@y.z", some "r"⟩, 7, 2, 11, 5⟩,
         ⟨⟨some "f@g.h", some "s"⟩, 7, 4, 12, 6⟩]
        [⟨3, "x@y.z", bcryptHash 1 "p"⟩]) :=
  ⟨by unfold uniqueEmails; decide, by decide,
   (C6_register_unique [⟨3, "x@y.z", bcryptHash 1 "p"⟩]
     ⟨some "x@y.z", some "q"⟩ 7 2 9 0 ⟨3, "x@y.z", bcryptHash 1 "p"⟩
     [] (by unfold uniqueEmails; decide) (by decide)).1,
   (C6_register_unique [⟨3, "x@y.z", bcryptHash 1 "p"⟩]
     ⟨some "x@y.z", some "q"⟩ 7 2 9 0 ⟨3, "x@y.z", bcryptHash 1 "p"⟩
     [⟨⟨some "x@y.z", some "r"⟩, 7, 2, 11, 5⟩,
      ⟨⟨some "f@g.h", some "s"⟩, 7, 4, 12, 6⟩]
     (by unfold uniqueEmails; decide) (by decide)).2⟩

/-- C7 counterexample: the claim states that a register request with an
empty password fails with a 400 validation error and creates no record.
The register handler performs no presence check: `bcrypt.hash('', salt)`
succeeds and the stored hash passes the schema's `required` validator,
so registering with an empty password answers 201 with a token and
creates the record. -/
theorem C7_empty_password_counterexample :
    register [] ⟨some "a@b.c", some ""⟩ 1 5 7 0
      = ([⟨7, "a@b.c", bcryptHash 5 ""⟩],
         .token 201 (jwtSign 1 7 0)) := by
  decide

/-- C7 (amended): a register request with a missing password, an
all-whitespace-or-empty identifier, or a missing identifier creates no
record, but the failure is a 500 server error (bcrypt or the schema
validator throwing inside the catch-all) — or, when the identifier is
missing and the store is non-empty, a 400 `'User already exists'`
(Mongoose drops the undefined filter key, so `findOne({})` hits the
first user) — never a 400 missing-fields validation error; and an empty
(present) password with a fresh identifier is accepted: 201 and a
record is created. -/
theorem C7_register_no_validation (store : List User)
    (secret salt newId now : Nat) (e : String) (pw : Option String)
    (hfresh : findUserByEmail store (some e) = none) :
    register store ⟨some e, none⟩ secret salt newId now
      = (store, .message 500 "Server error during registration")
    ∧ (strTrim e = "" → ∀ p,
        register store ⟨some e, some p⟩ secret salt newId now
          = (store, .message 500 "Server error during registration"))
    ∧ (store = [] →
        register store ⟨none, pw⟩ secret salt newId now
          = (store, .message 500 "Server error during registration"))
    ∧ (∀ v vs, store = v :: vs →
        register store ⟨none, pw⟩ secret salt newId now
          = (store, .message 400 "User already exists"))
    ∧ (strTrim e ≠ "" →
        register store ⟨some e, some ""⟩ secret salt newId now
          = (store ++ [⟨newId, strTrim e, bcryptHash salt ""⟩],
             .token 201 (jwtSign secret newId now))) := by
  refine ⟨?_, ?_, ?_, ?_, ?_⟩
  · simp [register, hfresh]
  · intro he p
    simp [register, hfresh, he]
  · intro h0
    subst h0
    rcases pw with _ | p <;> simp [register, findUserByEmail]
  · intro v vs hvs
    subst hvs
    rcases pw with _ | p <;> simp [register, findUserByEmail]
  · intro hne
    simp [register, hfresh, hne]

/-- C7 witness: on the empty store, registering `a@b.c` without a
password yields a 500 and no record, while registering `a@b.c` with the
empty password succeeds with 201 and creates the record. -/
theorem C7_register_no_validation_witness :
    findUserByEmail [] (some "a@b.c") = none
    ∧ register [] ⟨some "a@b.c", none⟩ 1 5 7 0
        = ([], .message 500 "Server error during registration")
    ∧ register [] ⟨some "a@b.c", some ""⟩ 1 5 7 0
        = ([⟨7, "a@b.c", bcryptHash 5 ""⟩],
           .token 201 (jwtSign 1 7 0)) :=
  ⟨by decide,
   (C7_register_no_validation [] 1 5 7 0 "a@b.c" none (by decide)).1,
   (C7_register_no_validation [] 1 5 7 0 "a@b.c" none
     (by decide)).2.2.2.2 (by decide)⟩

/-- C8: GET /tasks answers 200 with a list holding exactly the tasks
whose owner is the token identity (a permutation of the owner-filtered
store, no other user's tasks), sorted newest-first by creation
timestamp. -/
theorem C8_get_tasks_scoped_sorted (store : List Task) (uid : Nat) :
    ∃ l, getTasks store uid = .jsonList 200 l
      ∧ l.Perm (store.filter (fun t => t.user == uid))
      ∧ (∀ t, t ∈ l ↔ (t ∈ store ∧ t.user = uid))
      ∧ l.Pairwise (fun a b => b.createdAt ≤ a.createdAt) := by
  refine ⟨_, rfl, List.mergeSort_perm _ _, ?_, ?_⟩
  · intro t
    rw [List.mem_mergeSort, List.mem_filter]
    simp
  · have htrans : ∀ a b c : Task,
        (decide (b.createdAt ≤ a.createdAt)) = true →
        (decide (c.createdAt ≤ b.createdAt)) = true →
        (decide (c.createdAt ≤ a.createdAt)) = true := by
      intro a b c hab hbc
      simp only [decide_eq_true_eq] at hab hbc ⊢
      omega
    have htot : ∀ a b : Task,
        ((decide (b.createdAt ≤ a.createdAt))
          || (decide (a.createdAt ≤ b.createdAt))) = true := by
      intro a b
      simp only [Bool.or_eq_true, decide_eq_true_eq]
      omega
    have h := @List.sorted_mergeSort Task
      (fun a b : Task => decide (b.createdAt ≤ a.createdAt))
      htrans htot (store.filter (fun t => t.user == uid))
    exact h.imp (fun hab => by simpa using hab)

/-- C9: a task with `completed = false`, patched by its owner with
`{completed: true}` and then `{completed: false}`, is answered (200) and
stored as the original task with only `updatedAt` advanced — title,
completion flag, owner, id and creation time all as before. -/
theorem C9_toggle_twice (store : List Task) (uid i now1 now2 : Nat)
    (t : Task)
    (hfind : store.find? (ownerFilter i uid) = some t)
    (hc : t.completed = false) :
    (patchTask (patchTask store uid i ⟨none, some true, none⟩ now1).fst
        uid i ⟨none, some false, none⟩ now2).snd
      = .json 200 { t with updatedAt := now2 }
    ∧ (patchTask (patchTask store uid i ⟨none, some true, none⟩ now1).fst
        uid i ⟨none, some false, none⟩ now2).fst.find?
          (ownerFilter i uid)
      = some { t with updatedAt := now2 } := by
  have hp : ownerFilter i uid t = true := List.find?_some hfind
  have hpf1 : ownerFilter i uid
      (applyUpdate ⟨none, some true, none⟩ now1 t) = true := by
    simpa [applyUpdate, ownerFilter] using hp
  rcases hfu1 : findOneAndUpdate (ownerFilter i uid)
      (applyUpdate ⟨none, some true, none⟩ now1) store with ⟨o1, store1⟩
  have ho1 : o1 = some (applyUpdate ⟨none, some true, none⟩ now1 t) := by
    have h := findOneAndUpdate_fst_of_find? (ownerFilter i uid)
      (applyUpdate ⟨none, some true, none⟩ now1) store t hfind
    rw [hfu1] at h
    exact h
  subst ho1
  have hstep1 : patchTask store uid i ⟨none, some true, none⟩ now1
      = (store1,
         .json 200 (applyUpdate ⟨none, some true, none⟩ now1 t)) := by
    simp [patchTask, validUpdate, hfu1]
  have hfind1 : store1.find? (ownerFilter i uid)
      = some (applyUpdate ⟨none, some true, none⟩ now1 t) := by
    have h := findOneAndUpdate_snd_find? (ownerFilter i uid)
      (applyUpdate ⟨none, some true, none⟩ now1) store t hfind hpf1
    rw [hfu1] at h
    exact h
  have hpf2 : ownerFilter i uid
      (applyUpdate ⟨none, some false, none⟩ now2
        (applyUpdate ⟨none, some true, none⟩ now1 t)) = true := by
    simpa [applyUpdate, ownerFilter] using hp
  rcases hfu2 : findOneAndUpdate (ownerFilter i uid)
      (applyUpdate ⟨none, some false, none⟩ now2) store1
    with ⟨o2, store2⟩
  have ho2 : o2 = some (applyUpdate ⟨none, some false, none⟩ now2
      (applyUpdate ⟨none, some true, none⟩ now1 t)) := by
    have h := findOneAndUpdate_fst_of_find? (ownerFilter i uid)
      (applyUpdate ⟨none, some false, none⟩ now2) store1 _ hfind1
    rw [hfu2] at h
    exact h
  subst ho2
  have hfind2 : store2.find? (ownerFilter i uid)
      = some (applyUpdate ⟨none, some false, none⟩ now2
          (applyUpdate ⟨none, some true, none⟩ now1 t)) := by
    have h := findOneAndUpdate_snd_find? (ownerFilter i uid)
      (applyUpdate ⟨none, some false, none⟩ now2) store1 _ hfind1 hpf2
    rw [hfu2] at h
    exact h
  have hval : applyUpdate ⟨none, some false, none⟩ now2
      (applyUpdate ⟨none, some true, none⟩ now1 t)
      = { t with updatedAt := now2 } := by
    cases t with
    | mk tid ttitle tcompleted tuser tcreated tupdated =>
      cases hc
      rfl
  rw [hstep1]
  constructor
  · simp [patchTask, validUpdate, hfu2, hval]
  · simp [patchTask, validUpdate, hfu2, hfind2, hval]

/-- C9 witness: the store holds task 1 (`completed = false`, owner 10);
patching `{completed:true}` at time 3 and `{completed:false}` at time 6
as user 10 answers the original task with `updatedAt = 6`. -/
theorem C9_toggle_twice_witness :
    ([(⟨1, "t", false, 10, 0, 0⟩ : Task)].find? (ownerFilter 1 10)
        = some ⟨1, "t", false, 10, 0, 0⟩)
    ∧ (patchTask (patchTask [⟨1, "t", false, 10, 0, 0⟩] 10 1
          ⟨none, some true, none⟩ 3).fst 10 1
          ⟨none, some false, none⟩ 6).snd
        = .json 200 ⟨1, "t", false, 10, 0, 6⟩ :=
  ⟨by decide,
   (C9_toggle_twice [⟨1, "t", false, 10, 0, 0⟩] 10 1 3 6
     ⟨1, "t", false, 10, 0, 0⟩ (by decide) rfl).1⟩

/-- C10: POST /tasks appends a task whose owner is the token identity
and whose completion flag is `false`, whatever `completed` or `user`
fields the body carries: only the title is read from the body, so any
two bodies with the same title produce identical results. -/
theorem C10_create_task (store : List Task) (uid newId now : Nat)
    (body : TaskBody) (s : String)
    (htitle : body.title = some s) (hs : strTrim s ≠ "") :
    createTask store uid body newId now
      = (store ++ [⟨newId, strTrim s, false, uid, now, now⟩],
         .json 201 ⟨newId, strTrim s, false, uid, now, now⟩)
    ∧ (∀ b2 : TaskBody, b2.title = body.title →
        createTask store uid b2 newId now
          = createTask store uid body newId now) := by
  constructor
  · simp [createTask, htitle, hs]
  · intro b2 hb2
    unfold createTask
    rw [hb2]

/-- C10 witness: a body claiming `completed: true` and `user: 99` still
creates a task with `completed = false` owned by the token user 10. -/
theorem C10_create_task_witness :
    ((⟨some "Buy milk", some true, some 99⟩ : TaskBody).title
        = some "Buy milk")
    ∧ strTrim "Buy milk" ≠ ""
    ∧ createTask [] 10 ⟨some "Buy milk", some true, some 99⟩ 1 0
        = ([⟨1, "Buy milk", false, 10, 0, 0⟩],
           .json 201 ⟨1, "Buy milk", false, 10, 0, 0⟩) :=
  ⟨rfl, by decide,
   (C10_create_task [] 10 1 0 ⟨some "Buy milk", some true, some 99⟩
     "Buy milk" rfl (by decide)).1⟩

end TaskManager
